import Mathlib

/-!
Verification of the `mesh_runtime_placement` scripts.

The Python sources are embedded shallowly: Python strings become `List Char`,
the remote-control transport (UnrealCV client) becomes an explicit environment
record (readiness readings, responses indexed by request count, `time.time()`
renderings indexed by call count, interactive input lines), and each script's
control flow becomes a total Lean function that returns its result together
with the trace of transport events (requests sent and disconnects).
-/

namespace MeshPlacement

/-- The character list of a Lean string literal; used to embed Python string
literals from the source. -/
def strLit (s : String) : List Char :=
  s.data

/-- Python `s.startswith(t)` on embedded strings. -/
def pyStartsWith (s t : List Char) : Bool :=
  t.isPrefixOf s

/-- Python `s.endswith(t)` on embedded strings. -/
def pyEndsWith (s t : List Char) : Bool :=
  t.isSuffixOf s

/-- Python `s.lower()` (the sources only ever compare ASCII input against
`"exit"`, for which `Char.toLower` agrees with Python). -/
def pyLower (s : List Char) : List Char :=
  s.map Char.toLower

/-- Python `s.split(c)` on embedded strings: split at every occurrence of the
separator character, keeping empty pieces, never returning an empty list. -/
def splitOnChar (c : Char) : List Char → List (List Char)
  | [] => [[]]
  | x :: xs =>
    match splitOnChar c xs with
    | [] => [[]]
    | h :: t => if x == c then [] :: h :: t else (x :: h) :: t

/-- Python `path.split('/')[-1]`: the last `/`-separated component. -/
def lastComp (p : List Char) : List Char :=
  (splitOnChar '/' p).getLastD []

/-- The response classification used everywhere in the sources:
`response.startswith('error')` (src/place_mesh_runtime.py line 105,
src/hunyuan3d_ue5_demo.py lines 203/254/274/290). -/
def isError (raw : List Char) : Bool :=
  pyStartsWith raw (strLit "error")

/-- The interactive loop's termination test `command.lower() == 'exit'`
(src/place_mesh_runtime.py line 137, src/hunyuan3d_ue5_demo.py line 229). -/
def isExit (line : List Char) : Bool :=
  pyLower line == strLit "exit"

/-- Blueprint-path normalization of src/place_mesh_runtime.py lines 88-97:
if the path does not end in `_C`, either append `.{name}_C` (when the path
contains no `.`) or append `_C` (when it already contains a `.`). -/
def pmrNormalize (p : List Char) : List Char :=
  if pyEndsWith p (strLit "_C") then p
  else if p.contains '.' = false then p ++ strLit "." ++ lastComp p ++ strLit "_C"
  else p ++ strLit "_C"

/-- Blueprint-path normalization of src/hunyuan3d_ue5_demo.py lines 189-194:
if the path does not end in `_C`, always append `.{name}_C`. -/
def demoNormalize (p : List Char) : List Char :=
  if pyEndsWith p (strLit "_C") then p
  else p ++ strLit "." ++ lastComp p ++ strLit "_C"

/-- Alternative path of src/hunyuan3d_ue5_demo.py lines 246-248: strip a
trailing `_C` (`alt_bp_path[:-2]`) when present. -/
def demoAltPath (p : List Char) : List Char :=
  if pyEndsWith p (strLit "_C") then p.take (p.length - 2) else p

/-! ## The connect-retry loop

All scripts share the same loop (src/place_mesh_runtime.py lines 54-70):
`for i in range(timeout)`: check `isconnected()`; if false, call `connect()`
inside a bare `try/except` (a raised fault is swallowed and skips only the
re-check), re-check `isconnected()`, sleep one second, continue.

The mocked transport is a function of elapsed loop iterations: `isconn i` is
the readiness the transport reports during iteration `i` (its state advances
once per one-second sleep, so both `isconnected()` calls made within one
iteration observe the same value), and `connectRaises i` says whether the
`connect()` call of iteration `i` raises. -/

structure ConnTransport where
  isconn : Nat → Bool
  connectRaises : Nat → Bool

/-- One-to-one embedding of the `for i in range(timeout)` loop body; `fuel` is
the number of iterations left and `i` the current iteration index.  Returns
the reported success flag together with the number of attempts (iterations)
performed. -/
def connectLoopAux (t : ConnTransport) : Nat → Nat → Bool × Nat
  | 0, i => (false, i)
  | fuel + 1, i =>
    if t.isconn i then (true, i + 1)
    else if t.connectRaises i then connectLoopAux t fuel (i + 1)
    else if t.isconn i then (true, i + 1)
    else connectLoopAux t fuel (i + 1)

/-- The whole connect loop with its fixed budget `timeout = 30`
(src/place_mesh_runtime.py line 54). -/
def tryConnect (t : ConnTransport) : Bool × Nat :=
  connectLoopAux t 30 0

/-! ## Transport events and the two dispatchers -/

/-- Source location of each `client.request` call (plus the shared
interactive loops); `m1` to `m4` are the four spawn-fallback methods of
`place_in_runtime`, `diag1`/`diag2` its two error-reporting re-sends
(src/hunyuan3d_ue5_demo.py lines 283-284), and the `pmr` sites belong to
src/place_mesh_runtime.py. -/
inductive Site where
  | m1spawn
  | m1loc
  | m1rot
  | m1scale
  | loopDemo
  | m2spawn
  | m2loc
  | m3spawn
  | diag1
  | diag2
  | m4spawn
  | m4loc
  | pmrSpawn
  | pmrRot
  | pmrScale
  | loopPMR
  deriving DecidableEq

/-- A transport event: a request (tagged with its source site, carrying the
command text sent and the raw response received) or a `disconnect()` call. -/
inductive Ev where
  | req (site : Site) (cmd : List Char) (raw : List Char)
  | disc
  deriving DecidableEq

/-- The environment a run is executed against: the CLI argument strings that
matter (`path`, raw `rotation` and `scale` strings), the string renderings of
the parsed floats (float formatting itself is left opaque), the transport's
response to the k-th request, the rendering of the k-th `int(time.time())`
call, and the interactive input lines (exhaustion of `inputs` models the
interrupt signal that ends the interactive prompt). -/
structure RunWorld where
  path : List Char
  rotation : List Char
  scale : List Char
  xTok : List Char
  yTok : List Char
  zTok : List Char
  pitchTok : List Char
  yawTok : List Char
  rollTok : List Char
  sxTok : List Char
  syTok : List Char
  szTok : List Char
  resp : Nat → List Char
  timeTok : Nat → List Char
  inputs : List (List Char)

/-- The shared interactive tail loop (src/place_mesh_runtime.py lines 134-141,
src/hunyuan3d_ue5_demo.py lines 226-233): read a line, stop on
`command.lower() == 'exit'`, otherwise forward the line verbatim as a request
and print the raw response; an interrupt (end of `inputs`) also stops it.
`k` is the current request counter. -/
def interactiveLoop (tag : Site) (resp : Nat → List Char) : List (List Char) → Nat → List Ev
  | [], _ => []
  | line :: rest, k =>
    if isExit line then []
    else Ev.req tag line (resp k) :: interactiveLoop tag resp rest (k + 1)

/-- Post-connection body of `place_in_runtime`
(src/hunyuan3d_ue5_demo.py lines 185-312): the four-method spawn fallback,
the diagnostics re-sends before method 4, the conditional secondary commands
and the interactive tail on method 1's success, and the `disconnect()` call
on every path.  Returns the function's boolean result and the event trace. -/
def demoPlace (w : RunWorld) : Bool × List Ev :=
  let bp := demoNormalize w.path
  let spawnCmd1 := strLit "vset /objects/spawn " ++ bp ++ strLit " SpawnedObject_" ++ w.timeTok 0
  let r0 := w.resp 0
  if isError r0 = false then
    let objectName := strLit "SpawnedObject_" ++ w.timeTok 1
    let locCmd := strLit "vset /object/" ++ objectName ++ strLit "/location " ++
      w.xTok ++ strLit " " ++ w.yTok ++ strLit " " ++ w.zTok
    let r1 := w.resp 1
    let rotEvs : List Ev :=
      if w.rotation = strLit "0,0,0" then []
      else [Ev.req Site.m1rot (strLit "vset /object/" ++ objectName ++ strLit "/rotation " ++
        w.pitchTok ++ strLit " " ++ w.yawTok ++ strLit " " ++ w.rollTok) (w.resp 2)]
    let k2 := if w.rotation = strLit "0,0,0" then 2 else 3
    let sclEvs : List Ev :=
      if w.scale = strLit "1,1,1" then []
      else [Ev.req Site.m1scale (strLit "vset /object/" ++ objectName ++ strLit "/scale " ++
        w.sxTok ++ strLit " " ++ w.syTok ++ strLit " " ++ w.szTok) (w.resp k2)]
    let k3 := if w.scale = strLit "1,1,1" then k2 else k2 + 1
    let loopEvs := interactiveLoop Site.loopDemo w.resp w.inputs k3
    (true,
      [Ev.req Site.m1spawn spawnCmd1 r0, Ev.req Site.m1loc locCmd r1] ++
        rotEvs ++ sclEvs ++ loopEvs ++ [Ev.disc])
  else
    let altBp := demoAltPath w.path
    let spawnCmd2 := strLit "vset /objects/spawn " ++ altBp ++ strLit " SpawnedObject_" ++ w.timeTok 1
    let r1 := w.resp 1
    if isError r1 = false then
      let objectName := strLit "SpawnedObject_" ++ w.timeTok 2
      let locCmd := strLit "vset /object/" ++ objectName ++ strLit "/location " ++
        w.xTok ++ strLit " " ++ w.yTok ++ strLit " " ++ w.zTok
      let r2 := w.resp 2
      (true,
        [Ev.req Site.m1spawn spawnCmd1 r0, Ev.req Site.m2spawn spawnCmd2 r1,
          Ev.req Site.m2loc locCmd r2] ++ [Ev.disc])
    else
      let ue4Cmd := strLit "vrun \x22SpawnActor " ++ bp ++ strLit " Location=(" ++
        w.xTok ++ strLit "," ++ w.yTok ++ strLit "," ++ w.zTok ++ strLit ")\x22"
      let r2 := w.resp 2
      if isError r2 = false then
        (true,
          [Ev.req Site.m1spawn spawnCmd1 r0, Ev.req Site.m2spawn spawnCmd2 r1,
            Ev.req Site.m3spawn ue4Cmd r2] ++ [Ev.disc])
      else
        let diag1Cmd := strLit "vset /objects/spawn " ++ bp ++ strLit " TestObject"
        let r3 := w.resp 3
        let diag2Cmd := strLit "vset /objects/spawn " ++ altBp ++ strLit " TestObject"
        let r4 := w.resp 4
        let cubeCmd := strLit "vset /objects/spawn StaticMeshActor PlaceholderCube_" ++ w.timeTok 2
        let r5 := w.resp 5
        let pre := [Ev.req Site.m1spawn spawnCmd1 r0, Ev.req Site.m2spawn spawnCmd2 r1,
          Ev.req Site.m3spawn ue4Cmd r2, Ev.req Site.diag1 diag1Cmd r3,
          Ev.req Site.diag2 diag2Cmd r4]
        if isError r5 = false then
          let cubeName := strLit "PlaceholderCube_" ++ w.timeTok 3
          let locCmd := strLit "vset /object/" ++ cubeName ++ strLit "/location " ++
            w.xTok ++ strLit " " ++ w.yTok ++ strLit " " ++ w.zTok
          let r6 := w.resp 6
          (true, pre ++ [Ev.req Site.m4spawn cubeCmd r5, Ev.req Site.m4loc locCmd r6] ++ [Ev.disc])
        else
          (false, pre ++ [Ev.req Site.m4spawn cubeCmd r5] ++ [Ev.disc])

/-- Post-connection body of `main` in src/place_mesh_runtime.py
(lines 87-146): normalize the blueprint path, send the single spawn command;
on an error response disconnect and return, otherwise use the response as the
object id, conditionally send the rotation and scale commands, run the
interactive tail, and disconnect in the `finally` block. -/
def pmrMain (w : RunWorld) : List Ev :=
  let bp := pmrNormalize w.path
  let spawnCmd := strLit "vset /objects/spawn " ++ bp ++ strLit " " ++
    w.xTok ++ strLit " " ++ w.yTok ++ strLit " " ++ w.zTok
  let r0 := w.resp 0
  if isError r0 then
    [Ev.req Site.pmrSpawn spawnCmd r0] ++ [Ev.disc]
  else
    let objectId := r0
    let rotEvs : List Ev :=
      if w.rotation = strLit "0,0,0" then []
      else [Ev.req Site.pmrRot (strLit "vset /object/" ++ objectId ++ strLit "/rotation " ++
        w.pitchTok ++ strLit " " ++ w.yawTok ++ strLit " " ++ w.rollTok) (w.resp 1)]
    let k2 := if w.rotation = strLit "0,0,0" then 1 else 2
    let sclEvs : List Ev :=
      if w.scale = strLit "1,1,1" then []
      else [Ev.req Site.pmrScale (strLit "vset /object/" ++ objectId ++ strLit "/scale " ++
        w.sxTok ++ strLit " " ++ w.syTok ++ strLit " " ++ w.szTok) (w.resp k2)]
    let k3 := if w.scale = strLit "1,1,1" then k2 else k2 + 1
    let loopEvs := interactiveLoop Site.loopPMR w.resp w.inputs k3
    [Ev.req Site.pmrSpawn spawnCmd r0] ++ rotEvs ++ sclEvs ++ loopEvs ++ [Ev.disc]

/-! ## Trace observations -/

/-- The four spawn-fallback candidate sites of `place_in_runtime`. -/
def isCandidate : Site → Bool
  | Site.m1spawn => true
  | Site.m2spawn => true
  | Site.m3spawn => true
  | Site.m4spawn => true
  | _ => false

/-- The candidate spawn attempts occurring in a trace, in order. -/
def candSites (tr : List Ev) : List Site :=
  tr.filterMap fun e =>
    match e with
    | Ev.req s _ _ => if isCandidate s then some s else none
    | Ev.disc => none

/-- The request sites occurring in a trace, in order. -/
def evSites (tr : List Ev) : List Site :=
  tr.filterMap fun e =>
    match e with
    | Ev.req s _ _ => some s
    | Ev.disc => none

/-- The command text of an event (empty for a disconnect). -/
def evCmd : Ev → List Char
  | Ev.req _ c _ => c
  | Ev.disc => []

/-- The raw response of an event (empty for a disconnect). -/
def evRaw : Ev → List Char
  | Ev.req _ _ r => r
  | Ev.disc => []

/-- The environment of the spec's fallback scenario: the transport answers
`error: x`, then `error: y`, then `ok:id123` to every further request. -/
def fallbackWorld : RunWorld :=
  { path := strLit "/Game/Meshes/MeshBP"
    rotation := strLit "0,0,0"
    scale := strLit "1,1,1"
    xTok := strLit "0.0"
    yTok := strLit "0.0"
    zTok := strLit "100.0"
    pitchTok := strLit "0.0"
    yawTok := strLit "0.0"
    rollTok := strLit "0.0"
    sxTok := strLit "1.0"
    syTok := strLit "1.0"
    szTok := strLit "1.0"
    resp := fun n => if n = 0 then strLit "error: x"
      else if n = 1 then strLit "error: y" else strLit "ok:id123"
    timeTok := fun _ => strLit "1700000000"
    inputs := [] }

/-- An environment with a successful spawn, a non-identity rotation argument
and the identity scale argument. -/
def secWorld : RunWorld :=
  { path := strLit "/Game/Meshes/MeshBP"
    rotation := strLit "10,0,0"
    scale := strLit "1,1,1"
    xTok := strLit "0.0"
    yTok := strLit "0.0"
    zTok := strLit "100.0"
    pitchTok := strLit "10.0"
    yawTok := strLit "0.0"
    rollTok := strLit "0.0"
    sxTok := strLit "1.0"
    syTok := strLit "1.0"
    szTok := strLit "1.0"
    resp := fun _ => strLit "ok:id7"
    timeTok := fun _ => strLit "1700000000"
    inputs := [] }

/-! ## Helper lemmas -/

theorem candSites_nil : candSites [] = [] :=
  rfl

theorem evSites_nil : evSites [] = [] :=
  rfl

theorem candSites_append (a b : List Ev) :
    candSites (a ++ b) = candSites a ++ candSites b :=
  List.filterMap_append a b _

theorem candSites_cons_req (s : Site) (c r : List Char) (l : List Ev) :
    candSites (Ev.req s c r :: l) =
      if isCandidate s = true then s :: candSites l else candSites l := by
  cases h : isCandidate s with
  | true => simp [candSites, List.filterMap_cons, h]
  | false => simp [candSites, List.filterMap_cons, h]

theorem candSites_cons_disc (l : List Ev) : candSites (Ev.disc :: l) = candSites l := by
  simp [candSites, List.filterMap_cons]

theorem evSites_append (a b : List Ev) :
    evSites (a ++ b) = evSites a ++ evSites b :=
  List.filterMap_append a b _

theorem evSites_cons_req (s : Site) (c r : List Char) (l : List Ev) :
    evSites (Ev.req s c r :: l) = s :: evSites l := by
  simp [evSites, List.filterMap_cons]

theorem evSites_cons_disc (l : List Ev) : evSites (Ev.disc :: l) = evSites l := by
  simp [evSites, List.filterMap_cons]

theorem pyEndsWith_iff {s t : List Char} : pyEndsWith s t = true ↔ t <:+ s := by
  simp [pyEndsWith, List.isSuffixOf_iff_suffix]

theorem pyEndsWith_append_right {s t : List Char} (u : List Char)
    (h : pyEndsWith s t = true) : pyEndsWith (u ++ s) t = true := by
  rw [pyEndsWith_iff] at h ⊢
  exact h.trans (List.suffix_append u s)

theorem pyEndsWith_self_append (u t : List Char) : pyEndsWith (u ++ t) t = true := by
  rw [pyEndsWith_iff]
  exact List.suffix_append u t

theorem lastEv_concat (l : List Ev) (e : Ev) : (l ++ [e]).getLast? = some e :=
  List.getLast?_concat l

theorem pmrNormalize_of_endsWith {q : List Char}
    (h : pyEndsWith q (strLit "_C") = true) : pmrNormalize q = q := by
  unfold pmrNormalize
  rw [if_pos h]

theorem candSites_interactiveLoop (tag : Site) (hc : isCandidate tag = false)
    (resp : Nat → List Char) :
    ∀ (inputs : List (List Char)) (k : Nat), candSites (interactiveLoop tag resp inputs k) = [] := by
  intro inputs
  induction inputs with
  | nil => intro k; rfl
  | cons line rest ih =>
    intro k
    show candSites (if isExit line = true then [] else
      Ev.req tag line (resp k) :: interactiveLoop tag resp rest (k + 1)) = []
    by_cases h : isExit line = true
    · rw [if_pos h]; rfl
    · rw [if_neg h]
      show List.filterMap _ (Ev.req tag line (resp k) :: interactiveLoop tag resp rest (k + 1)) = []
      rw [List.filterMap_cons]
      simp only [hc, Bool.false_eq_true, if_false]
      exact ih (k + 1)

theorem evSites_interactiveLoop (tag : Site) (resp : Nat → List Char) :
    ∀ (inputs : List (List Char)) (k : Nat),
      evSites (interactiveLoop tag resp inputs k) =
        List.replicate (inputs.takeWhile fun l => !isExit l).length tag := by
  intro inputs
  induction inputs with
  | nil => intro k; rfl
  | cons line rest ih =>
    intro k
    show evSites (if isExit line = true then [] else
      Ev.req tag line (resp k) :: interactiveLoop tag resp rest (k + 1)) =
      List.replicate ((line :: rest).takeWhile fun l => !isExit l).length tag
    by_cases h : isExit line = true
    · rw [if_pos h]
      simp [List.takeWhile_cons, h]
      rfl
    · have h' : isExit line = false := by
        cases hb : isExit line with
        | false => rfl
        | true => exact absurd hb h
      rw [if_neg h]
      show List.filterMap _ (Ev.req tag line (resp k) :: interactiveLoop tag resp rest (k + 1)) = _
      rw [List.filterMap_cons]
      simp only [List.takeWhile_cons, h', Bool.not_false, List.length_cons, List.replicate_succ]
      exact congrArg (tag :: ·) (ih (k + 1))

/-! ## Claims about path normalization and error classification -/

/-- Claim C4: the blueprint-path normalization of src/place_mesh_runtime.py
appends exactly one class suffix (a string ending in `_C`) when the path does
not already end with `_C`, leaves a path ending in `_C` unchanged, always
yields a path ending in `_C`, and is idempotent. -/
theorem pmr_normalize_spec (p : List Char) :
    (pyEndsWith p (strLit "_C") = true → pmrNormalize p = p) ∧
    (pyEndsWith p (strLit "_C") = false →
      ∃ s, pyEndsWith s (strLit "_C") = true ∧ pmrNormalize p = p ++ s) ∧
    pyEndsWith (pmrNormalize p) (strLit "_C") = true ∧
    pmrNormalize (pmrNormalize p) = pmrNormalize p := by
  by_cases h : pyEndsWith p (strLit "_C") = true
  · have hid : pmrNormalize p = p := pmrNormalize_of_endsWith h
    refine ⟨fun _ => hid, fun hfalse => ?_, ?_, ?_⟩
    · rw [h] at hfalse
      cases hfalse
    · rw [hid]; exact h
    · rw [hid, hid]
  · have hne : ¬ pyEndsWith p (strLit "_C") = true := h
    have hval : pmrNormalize p =
        if p.contains '.' = false then p ++ strLit "." ++ lastComp p ++ strLit "_C"
        else p ++ strLit "_C" := by
      unfold pmrNormalize
      rw [if_neg hne]
    have hends : pyEndsWith (pmrNormalize p) (strLit "_C") = true := by
      rw [hval]
      by_cases hdot : p.contains '.' = false
      · rw [if_pos hdot]
        exact pyEndsWith_self_append _ _
      · rw [if_neg hdot]
        exact pyEndsWith_self_append p _
    refine ⟨fun htrue => absurd htrue hne, fun _ => ?_, hends, ?_⟩
    · by_cases hdot : p.contains '.' = false
      · refine ⟨strLit "." ++ lastComp p ++ strLit "_C", pyEndsWith_self_append _ _, ?_⟩
        rw [hval, if_pos hdot]
        simp only [List.append_assoc]
      · refine ⟨strLit "_C", pyEndsWith_self_append [] _, ?_⟩
        rw [hval, if_neg hdot]
    · exact pmrNormalize_of_endsWith hends

/-- Claim C4 witness: the normalization at the two kinds of concrete input,
obtained by instantiating `pmr_normalize_spec`. -/
theorem pmr_normalize_spec_witness :
    pmrNormalize (strLit "/Game/M.M_C") = strLit "/Game/M.M_C" ∧
    ∃ s, pyEndsWith s (strLit "_C") = true ∧
      pmrNormalize (strLit "/Game/M") = strLit "/Game/M" ++ s :=
  ⟨(pmr_normalize_spec (strLit "/Game/M.M_C")).1 (by decide),
    (pmr_normalize_spec (strLit "/Game/M")).2.1 (by decide)⟩

/-- Claim C5: the error flag computed from a raw response is true exactly when
the response begins with the literal prefix `error`; this single predicate
`isError` is the success test used by both dispatchers. -/
theorem isError_iff (raw : List Char) :
    isError raw = true ↔ strLit "error" <+: raw := by
  simp [isError, pyStartsWith, List.isPrefixOf_iff_prefix]

/-- Claim C9 counterexample: on the input `/Game/A.B` (a path containing a dot
and not ending in `_C`) the two normalizations disagree. -/
theorem normalize_mismatch :
    pmrNormalize (strLit "/Game/A.B") ≠ demoNormalize (strLit "/Game/A.B") := by
  decide

/-- Claim C9 (amended): the two normalizations agree on every path that
already ends in `_C` or contains no dot; they may differ on dotted paths. -/
theorem normalize_agree (p : List Char)
    (h : pyEndsWith p (strLit "_C") = true ∨ p.contains '.' = false) :
    pmrNormalize p = demoNormalize p := by
  rcases h with h | h
  · unfold pmrNormalize demoNormalize
    rw [if_pos h, if_pos h]
  · by_cases hend : pyEndsWith p (strLit "_C") = true
    · unfold pmrNormalize demoNormalize
      rw [if_pos hend, if_pos hend]
    · unfold pmrNormalize demoNormalize
      rw [if_neg hend, if_neg hend, if_pos h]

/-- Claim C9 witness: the two normalizations agree at the dot-free path
`/Game/M`, by `normalize_agree`. -/
theorem normalize_agree_witness :
    pmrNormalize (strLit "/Game/M") = demoNormalize (strLit "/Game/M") :=
  normalize_agree (strLit "/Game/M") (Or.inr (by decide))

/-! ## Claims about the connect loop -/

theorem connectLoopAux_reaches (t : ConnTransport) (N : Nat)
    (h : ∀ j, t.isconn j = decide (N ≤ j)) :
    ∀ fuel i, i ≤ N → N < i + fuel → connectLoopAux t fuel i = (true, N + 1) := by
  intro fuel
  induction fuel with
  | zero =>
    intro i hle hlt
    omega
  | succ n ih =>
    intro i hle hlt
    rcases Nat.eq_or_lt_of_le hle with heq | hlt'
    · have hc : t.isconn i = true := by
        rw [h i, heq]
        simp
      unfold connectLoopAux
      rw [hc, if_pos rfl, heq]
    · have hc : t.isconn i = false := by
        rw [h i]
        simp
        omega
      have hrec : connectLoopAux t n (i + 1) = (true, N + 1) := ih (i + 1) hlt' (by omega)
      unfold connectLoopAux
      rw [hc]
      by_cases hr : t.connectRaises i = true
      · rw [if_neg (by simp), if_pos hr]
        exact hrec
      · rw [if_neg (by simp), if_neg hr, if_neg (by simp [hc])]
        exact hrec

theorem connectLoopAux_exhausts (t : ConnTransport)
    (h : ∀ j, t.isconn j = false) :
    ∀ fuel i, connectLoopAux t fuel i = (false, i + fuel) := by
  intro fuel
  induction fuel with
  | zero => intro i; rfl
  | succ n ih =>
    intro i
    unfold connectLoopAux
    rw [h i]
    have hrec : connectLoopAux t n (i + 1) = (false, i + 1 + n) := ih (i + 1)
    by_cases hr : t.connectRaises i = true
    · rw [if_neg (by simp), if_pos hr, hrec]
      exact congrArg (Prod.mk false) (by omega)
    · rw [if_neg (by simp), if_neg hr, if_neg (by simp [h i]), hrec]
      exact congrArg (Prod.mk false) (by omega)

/-- Claim C2: against a transport that reports not-connected on the first `N`
readiness polls and connected from then on, with `N` below the 30-attempt
budget, the connect loop reports success after exactly `N + 1` attempts. -/
theorem connect_succeeds_after (t : ConnTransport) (N : Nat)
    (hN : N < 30) (h : ∀ j, t.isconn j = decide (N ≤ j)) :
    tryConnect t = (true, N + 1) :=
  connectLoopAux_reaches t N h 30 0 (Nat.zero_le N) (by omega)

/-- Claim C2 witness: a transport that becomes ready at the third poll
connects with exactly 3 attempts, by `connect_succeeds_after`. -/
theorem connect_succeeds_after_witness :
    tryConnect { isconn := fun j => decide (2 ≤ j), connectRaises := fun _ => false } =
      (true, 3) :=
  connect_succeeds_after _ 2 (by omega) (fun _ => rfl)

/-- Claim C3: against a transport that never reports connected, the connect
loop performs exactly its 30-attempt budget and then returns failure to the
caller (a value, not a raised exception). -/
theorem connect_fails_after_budget (t : ConnTransport)
    (h : ∀ j, t.isconn j = false) :
    tryConnect t = (false, 30) :=
  connectLoopAux_exhausts t h 30 0

/-- Claim C3 witness: a never-ready transport yields failure after the full
30 attempts, by `connect_fails_after_budget`. -/
theorem connect_fails_after_budget_witness :
    tryConnect { isconn := fun _ => false, connectRaises := fun _ => false } =
      (false, 30) :=
  connect_fails_after_budget _ (fun _ => rfl)

/-- Claim C8: a fault raised by a `connect()` call is swallowed: the loop's
outcome (success flag and attempt count) is identical whatever raise pattern
the transport exhibits, and when the loop does not succeed it always runs its
whole 30-attempt budget before reporting failure. -/
theorem connect_swallows_faults (isc r r' : Nat → Bool) :
    tryConnect { isconn := isc, connectRaises := r } =
      tryConnect { isconn := isc, connectRaises := r' } ∧
    ((tryConnect { isconn := isc, connectRaises := r }).1 = false →
      (tryConnect { isconn := isc, connectRaises := r }).2 = 30) := by
  have key : ∀ fuel i,
      connectLoopAux { isconn := isc, connectRaises := r } fuel i =
        connectLoopAux { isconn := isc, connectRaises := r' } fuel i ∧
      ((connectLoopAux { isconn := isc, connectRaises := r } fuel i).1 = false →
        (connectLoopAux { isconn := isc, connectRaises := r } fuel i).2 = i + fuel) := by
    intro fuel
    induction fuel with
    | zero => intro i; exact ⟨rfl, fun _ => rfl⟩
    | succ n ih =>
      intro i
      unfold connectLoopAux
      by_cases hc : isc i = true
      · simp only [hc, if_pos rfl]
        exact ⟨rfl, fun hfalse => by cases hfalse⟩
      · have hc' : isc i = false := by
          cases hb : isc i with
          | false => rfl
          | true => exact absurd hb hc
        simp only [hc', Bool.false_eq_true, if_false, ite_self]
        have ihi := ih (i + 1)
        exact ⟨ihi.1, fun hf => by rw [ihi.2 hf]; omega⟩
  exact ⟨(key 30 0).1, fun hf => (key 30 0).2 hf⟩

/-- Claim C8 witness: a transport that raises on every other attempt gives
the same outcome as one that never raises, and exhausts all 30 attempts, by
`connect_swallows_faults`. -/
theorem connect_swallows_faults_witness :
    tryConnect { isconn := fun _ => false, connectRaises := fun i => decide (i % 2 = 0) } =
      tryConnect { isconn := fun _ => false, connectRaises := fun _ => false } ∧
    (tryConnect { isconn := fun _ => false, connectRaises := fun i => decide (i % 2 = 0) }).2 = 30 :=
  ⟨(connect_swallows_faults (fun _ => false) (fun i => decide (i % 2 = 0)) (fun _ => false)).1,
    (connect_swallows_faults (fun _ => false) (fun i => decide (i % 2 = 0))
      (fun _ => false)).2 (by decide)⟩

/-! ## Claims about the spawn fallback, secondary commands, the interactive
tail and session release -/

/-- Claim C1: for every sequence of transport responses, `place_in_runtime`
tries the spawn candidates in the fixed order method 1 (normalized path),
method 2 (alternative path), method 3 (engine console command), method 4
(placeholder spawn), stopping at the first whose response does not start with
`error`, and returns `False` exactly when all four candidate responses start
with `error` (the candidate responses sit at request indices 0, 1, 2 and 5,
the two diagnostics re-sends coming in between); in particular on responses
`error: x`, `error: y`, `ok:id123` it succeeds on the third candidate and
attempts no fourth. -/
theorem demo_fallback_chain :
    (∀ w : RunWorld,
      candSites (demoPlace w).2 =
        (if isError (w.resp 0) = false then [Site.m1spawn]
          else if isError (w.resp 1) = false then [Site.m1spawn, Site.m2spawn]
          else if isError (w.resp 2) = false then
            [Site.m1spawn, Site.m2spawn, Site.m3spawn]
          else [Site.m1spawn, Site.m2spawn, Site.m3spawn, Site.m4spawn]) ∧
      ((demoPlace w).1 = false ↔
        isError (w.resp 0) = true ∧ isError (w.resp 1) = true ∧
        isError (w.resp 2) = true ∧ isError (w.resp 5) = true)) ∧
    (demoPlace fallbackWorld).1 = true ∧
    candSites (demoPlace fallbackWorld).2 = [Site.m1spawn, Site.m2spawn, Site.m3spawn] := by
  refine ⟨fun w => ?_, by decide, by decide⟩
  cases h0 : isError (w.resp 0) with
  | false =>
    constructor
    · simp [demoPlace, h0, candSites_append, candSites_cons_req, candSites_cons_disc,
        candSites_nil, isCandidate, apply_ite candSites, ite_self,
        candSites_interactiveLoop Site.loopDemo rfl]
    · simp [demoPlace, h0]
  | true =>
    cases h1 : isError (w.resp 1) with
    | false =>
      constructor
      · simp [demoPlace, h0, h1, candSites_append, candSites_cons_req, candSites_cons_disc,
          candSites_nil, isCandidate]
      · simp [demoPlace, h0, h1]
    | true =>
      cases h2 : isError (w.resp 2) with
      | false =>
        constructor
        · simp [demoPlace, h0, h1, h2, candSites_append, candSites_cons_req,
            candSites_cons_disc, candSites_nil, isCandidate]
        · simp [demoPlace, h0, h1, h2]
      | true =>
        cases h5 : isError (w.resp 5) with
        | false =>
          constructor
          · simp [demoPlace, h0, h1, h2, h5, candSites_append, candSites_cons_req,
              candSites_cons_disc, candSites_nil, isCandidate]
          · simp [demoPlace, h0, h1, h2, h5]
        | true =>
          constructor
          · simp [demoPlace, h0, h1, h2, h5, candSites_append, candSites_cons_req,
              candSites_cons_disc, candSites_nil, isCandidate]
          · simp [demoPlace, h0, h1, h2, h5]

/-- Claim C6: after a successful spawn, `main` in src/place_mesh_runtime.py
sends the set-rotation command iff the rotation argument differs from `0,0,0`
and the set-scale command iff the scale argument differs from `1,1,1`; the
full site trace is exactly spawn, the optional secondaries, the interactive
tail and the disconnect, for every transport response sequence — in
particular an error response to a secondary command triggers no further
command (no rollback of the spawn). -/
theorem pmr_secondary_commands (w : RunWorld) (h0 : isError (w.resp 0) = false) :
    (Site.pmrRot ∈ evSites (pmrMain w) ↔ ¬ w.rotation = strLit "0,0,0") ∧
    (Site.pmrScale ∈ evSites (pmrMain w) ↔ ¬ w.scale = strLit "1,1,1") ∧
    evSites (pmrMain w) =
      [Site.pmrSpawn] ++
        (if w.rotation = strLit "0,0,0" then [] else [Site.pmrRot]) ++
        (if w.scale = strLit "1,1,1" then [] else [Site.pmrScale]) ++
        List.replicate (w.inputs.takeWhile fun l => !isExit l).length Site.loopPMR := by
  have htrace : evSites (pmrMain w) =
      [Site.pmrSpawn] ++
        (if w.rotation = strLit "0,0,0" then [] else [Site.pmrRot]) ++
        (if w.scale = strLit "1,1,1" then [] else [Site.pmrScale]) ++
        List.replicate (w.inputs.takeWhile fun l => !isExit l).length Site.loopPMR := by
    by_cases hr : w.rotation = strLit "0,0,0" <;>
      by_cases hs : w.scale = strLit "1,1,1" <;>
        simp [pmrMain, h0, hr, hs, evSites_append, evSites_cons_req, evSites_cons_disc,
          evSites_nil, evSites_interactiveLoop]
  refine ⟨?_, ?_, htrace⟩
  · rw [htrace]
    by_cases hr : w.rotation = strLit "0,0,0" <;>
      by_cases hs : w.scale = strLit "1,1,1" <;>
        simp [hr, hs, List.mem_append, List.mem_replicate]
  · rw [htrace]
    by_cases hr : w.rotation = strLit "0,0,0" <;>
      by_cases hs : w.scale = strLit "1,1,1" <;>
        simp [hr, hs, List.mem_append, List.mem_replicate]

/-- Claim C6 witness: in the environment `secWorld` (successful spawn,
rotation `10,0,0`, scale `1,1,1`) the rotation command is sent and the scale
command is not, by `pmr_secondary_commands`. -/
theorem pmr_secondary_commands_witness :
    (Site.pmrRot ∈ evSites (pmrMain secWorld) ↔ ¬ secWorld.rotation = strLit "0,0,0") ∧
    (Site.pmrScale ∈ evSites (pmrMain secWorld) ↔ ¬ secWorld.scale = strLit "1,1,1") ∧
    evSites (pmrMain secWorld) =
      [Site.pmrSpawn] ++
        (if secWorld.rotation = strLit "0,0,0" then [] else [Site.pmrRot]) ++
        (if secWorld.scale = strLit "1,1,1" then [] else [Site.pmrScale]) ++
        List.replicate (secWorld.inputs.takeWhile fun l => !isExit l).length Site.loopPMR :=
  pmr_secondary_commands secWorld (by decide)

/-- Claim C7 counterexample: the entered line `EXIT` differs from the literal
`exit` token, yet the interactive loop terminates on it without forwarding it
(the loop's test is case-insensitive), refuting the claim that the loop
forwards every line other than the literal `exit` token and terminates
exactly on it. -/
theorem interactive_loop_literal_exit_refuted :
    interactiveLoop Site.loopPMR (fun _ => strLit "ok") [strLit "EXIT"] 0 = [] ∧
    ¬ strLit "EXIT" = strLit "exit" := by
  constructor
  · decide
  · decide

/-- Claim C7 (amended): every entered line strictly before the first line
whose lowercasing is `exit` is forwarded verbatim to `request` with its raw
response printed; the loop terminates exactly on the first case-insensitive
`exit` line or on an interrupt (end of input); and `main` of
src/place_mesh_runtime.py releases the session (its trace ends with the
disconnect event) on every way out. -/
theorem interactive_tail_spec :
    (∀ (tag : Site) (resp : Nat → List Char) (inputs : List (List Char)) (k : Nat),
      (interactiveLoop tag resp inputs k).map evCmd =
        inputs.takeWhile (fun l => !isExit l) ∧
      (interactiveLoop tag resp inputs k).map evRaw =
        (List.range' k (inputs.takeWhile fun l => !isExit l).length).map resp) ∧
    (∀ w : RunWorld, (pmrMain w).getLast? = some Ev.disc) := by
  constructor
  · intro tag resp inputs
    induction inputs with
    | nil => intro k; exact ⟨rfl, rfl⟩
    | cons line rest ih =>
      intro k
      by_cases h : isExit line = true
      · constructor
        · simp [interactiveLoop, h, List.takeWhile_cons]
        · simp [interactiveLoop, h, List.takeWhile_cons]
      · have h' : isExit line = false := by
          cases hb : isExit line with
          | false => rfl
          | true => exact absurd hb h
        have ihk := ih (k + 1)
        constructor
        · simp [interactiveLoop, h', List.takeWhile_cons, evCmd, ihk.1]
        · simp [interactiveLoop, h', List.takeWhile_cons, List.range'_succ, evRaw, ihk.2]
  · intro w
    cases h0 : isError (w.resp 0) with
    | true =>
      simp only [pmrMain, h0]
      exact lastEv_concat _ _
    | false =>
      simp only [pmrMain, h0, Bool.false_eq_true, if_false]
      exact lastEv_concat _ _

/-- Claim C10: once connected, `place_in_runtime` releases the session on
every return path: for every environment, the last transport event of its
trace is the disconnect. -/
theorem demo_always_disconnects (w : RunWorld) :
    (demoPlace w).2.getLast? = some Ev.disc := by
  cases h0 : isError (w.resp 0) with
  | false =>
    simp only [demoPlace, h0, if_pos rfl]
    exact lastEv_concat _ _
  | true =>
    cases h1 : isError (w.resp 1) with
    | false =>
      simp only [demoPlace, h0, h1, Bool.true_eq_false, if_false, if_pos rfl]
      exact lastEv_concat _ _
    | true =>
      cases h2 : isError (w.resp 2) with
      | false =>
        simp only [demoPlace, h0, h1, h2, Bool.true_eq_false, if_false, if_pos rfl]
        exact lastEv_concat _ _
      | true =>
        cases h5 : isError (w.resp 5) with
        | false =>
          simp only [demoPlace, h0, h1, h2, h5, Bool.true_eq_false, if_false, if_pos rfl]
          exact lastEv_concat _ _
        | true =>
          simp only [demoPlace, h0, h1, h2, h5, Bool.true_eq_false, if_false]
          exact lastEv_concat _ _

end MeshPlacement
